import Mathlib

/-!
Shallow embedding of `src/python/hsfs/feature_group.py` (class `FeatureGroup`),
together with the pieces of its collaborators that the verified properties
depend on.  Pure metadata manipulation is translated directly from the source;
calls into the collaborator engines (compute engine, metadata engine,
statistics engine) are recorded as events in an explicit call trace, and
warnings issued via `warnings.warn` are recorded as advisory values.
-/

namespace Hsfs

/-- Python exceptions raised by the embedded code. -/
inductive PyError
  | typeError (msg : String)
  | valueError (msg : String)
  deriving DecidableEq, Repr

/-- Advisory warnings issued via `warnings.warn`.  Instead of modelling the
formatted message string, each advisory carries the values interpolated into
the message (`self._name` and `self._version`). -/
inductive Advisory
  | versionWarning (name : String) (version : Option Nat)
  | storageWarning (name : String) (version : Option Nat)
  deriving DecidableEq, Repr

/-- Modelled from the spec: the `StatisticsConfig` class
(`hsfs/statistics_config.py`) is not part of the provided sources; the spec
describes it as "an embedded configuration value with fields `enabled`,
`correlations`, `histograms`, `columns`". -/
structure StatisticsConfig where
  enabled : Bool
  correlations : Bool
  histograms : Bool
  columns : List String
  deriving DecidableEq, Repr

/-- Modelled from the spec: the `StatisticsConfig` constructor, called in
`feature_group.py` as `StatisticsConfig(desc_stats_enabled, feat_corr_enabled,
feat_hist_enabled, statistic_columns)` (positionally `enabled, correlations,
histograms, columns`); per the spec, omitted arguments default to a disabled
configuration. -/
def StatisticsConfig.make (enabled correlations histograms : Option Bool)
    (columns : Option (List String)) : StatisticsConfig :=
  ⟨enabled.getD false, correlations.getD false, histograms.getD false, columns.getD []⟩

/-- A schema feature descriptor (`hsfs.feature.Feature`).  Only the fields
`feature_group.py` reads are modelled: `name`, and the boolean flags
`primary` and `partition`. -/
structure Feature where
  name : String
  primary : Bool
  part : Bool
  deriving DecidableEq, Repr

/-- An element of the `features` constructor argument: either an already
constructed `Feature` object or a dict payload (`isinstance(feat, dict)`). -/
inductive FeatureArg
  | obj (f : Feature)
  | dict (name : String) (primary part : Bool)
  deriving DecidableEq, Repr

/-- Embeds `feature.Feature.from_response_json(feat) if isinstance(feat, dict)
else feat` — a dict payload is converted to a `Feature` (conversion modelled from
the spec: `Feature.from_response_json` is not in the provided sources; a
descriptor carries `name` and boolean flags). -/
def featureOfArg : FeatureArg → Feature
  | .obj f => f
  | .dict n p q => ⟨n, p, q⟩

/-- The value passed for the `statistics_config` argument; the
`statistics_config` property setter dispatches on its Python type:
`StatisticsConfig` | `dict` | `bool` | `None` | anything else. -/
inductive StatsConfigArg
  | explicit (c : StatisticsConfig)
  | fromDict (enabled correlations histograms : Option Bool) (columns : Option (List String))
  | fromBool (b : Bool)
  | absent
  | invalid (typeName : String)
  deriving DecidableEq, Repr

/-- The `statistics_config` property setter (`feature_group.py` lines
593-608): accepts a `StatisticsConfig`, a dict of keyword arguments, a bool
(enabled shorthand), or `None` (all defaults); any other type raises
`TypeError`. -/
def normalizeStatisticsConfig : StatsConfigArg → Except PyError StatisticsConfig
  | .explicit c => .ok c
  | .fromDict e c h cols => .ok (StatisticsConfig.make e c h cols)
  | .fromBool b => .ok (StatisticsConfig.make (some b) Option.none Option.none Option.none)
  | .absent => .ok (StatisticsConfig.make Option.none Option.none Option.none Option.none)
  | .invalid t => .error (.typeError ("The argument statistics_config has to be None of type StatisticsConfig, bool or dict, but is of type: " ++ t))

/-- Python `str.upper()` (ASCII case mapping), character by character. -/
def pyUpper (s : String) : String := ⟨s.data.map Char.toUpper⟩

/-- Python `str.lower()` (ASCII case mapping), character by character. -/
def pyLower (s : String) : String := ⟨s.data.map Char.toLower⟩

/-- The in-memory state of a `FeatureGroup` handle: the fields assigned by
`FeatureGroup.__init__`. -/
structure FeatureGroup where
  name : String
  version : Option Nat
  featureStoreId : Nat
  featureStoreName : Option String
  description : String
  created : Option String
  creator : Option String
  id : Option Nat
  features : List Feature
  location : Option String
  jobs : Option (List String)
  onlineEnabled : Bool
  timeTravelFormat : Option String
  hudiEnabled : Bool
  statisticsConfig : StatisticsConfig
  primaryKey : Option (List String)
  partitionKey : Option (List String)
  deriving DecidableEq, Repr

/-- The keyword arguments of `FeatureGroup.__init__`, after
`humps.decamelize` has renamed wire keys to the snake-case parameter names
(the renaming is a bijection on the modelled keys, so it is the identity on
this typed record). -/
structure InitArgs where
  name : String
  version : Option Nat
  featurestore_id : Nat
  description : String
  partition_key : Option (List String)
  primary_key : Option (List String)
  featurestore_name : Option String
  created : Option String
  creator : Option String
  id : Option Nat
  features : Option (List FeatureArg)
  location : Option String
  jobs : Option (List String)
  desc_stats_enabled : Option Bool
  feat_corr_enabled : Option Bool
  feat_hist_enabled : Option Bool
  statistic_columns : Option (List String)
  online_enabled : Bool
  time_travel_format : Option String
  hudi_enabled : Bool
  statistics_config : StatsConfigArg
  deriving DecidableEq, Repr

/-- The Python default values of optional `FeatureGroup.__init__`
parameters, for a call that supplies only `name`, `version` and
`featurestore_id`. -/
def InitArgs.base (name : String) (version : Option Nat) (fsid : Nat) : InitArgs :=
  { name := name
    version := version
    featurestore_id := fsid
    description := ""
    partition_key := Option.none
    primary_key := Option.none
    featurestore_name := Option.none
    created := Option.none
    creator := Option.none
    id := Option.none
    features := Option.none
    location := Option.none
    jobs := Option.none
    desc_stats_enabled := Option.none
    feat_corr_enabled := Option.none
    feat_hist_enabled := Option.none
    statistic_columns := Option.none
    online_enabled := false
    time_travel_format := Option.none
    hudi_enabled := false
    statistics_config := .absent }

/-- Embeds `FeatureGroup.__init__` (`feature_group.py` lines 33-105).  Iterating
over `features` when it is `None` raises a `TypeError` (`for feat in
features` with `features=None`); `time_travel_format` is upper-cased when not
`None`; when `id` is not `None` (initialized by backend) the statistics
configuration is rebuilt from the flat flags and the key lists are derived
from the feature flags, otherwise (initialized by user) the
`statistics_config` setter runs and the key lists are taken verbatim from the
arguments. -/
def FeatureGroup.init (a : InitArgs) : Except PyError FeatureGroup :=
  match a.features with
  | Option.none => .error (.typeError "argument of type NoneType is not iterable")
  | some featureArgs =>
    let features := featureArgs.map featureOfArg
    let ttf := a.time_travel_format.map pyUpper
    match a.id with
    | some i =>
      .ok { name := a.name
            version := a.version
            featureStoreId := a.featurestore_id
            featureStoreName := a.featurestore_name
            description := a.description
            created := a.created
            creator := a.creator
            id := some i
            features := features
            location := a.location
            jobs := a.jobs
            onlineEnabled := a.online_enabled
            timeTravelFormat := ttf
            hudiEnabled := a.hudi_enabled
            statisticsConfig := StatisticsConfig.make a.desc_stats_enabled
              a.feat_corr_enabled a.feat_hist_enabled a.statistic_columns
            primaryKey := some ((features.filter (fun f => f.primary)).map Feature.name)
            partitionKey := some ((features.filter (fun f => f.part)).map Feature.name) }
    | Option.none =>
      match normalizeStatisticsConfig a.statistics_config with
      | .error e => .error e
      | .ok sc =>
        .ok { name := a.name
              version := a.version
              featureStoreId := a.featurestore_id
              featureStoreName := a.featurestore_name
              description := a.description
              created := a.created
              creator := a.creator
              id := Option.none
              features := features
              location := a.location
              jobs := a.jobs
              onlineEnabled := a.online_enabled
              timeTravelFormat := ttf
              hudiEnabled := a.hudi_enabled
              statisticsConfig := sc
              primaryKey := a.primary_key
              partitionKey := a.partition_key }

/-- The `time_travel_format` property setter (`feature_group.py` lines
571-573): `self._time_travel_format = new_time_travel_format`, stored
verbatim. -/
def FeatureGroup.set_time_travel_format (fg : FeatureGroup) (v : Option String) : FeatureGroup :=
  { fg with timeTravelFormat := v }

/-- A call into one of the collaborator engines, recorded in program order.
`convertToDefaultDataframe` and `computeRead` are compute-engine calls
(`engine.get_instance()...`), the `metadata*` constructors are
`self._feature_group_engine` calls, and `statisticsCompute` is
`self._statistics_engine.compute_statistics`. -/
inductive EngineCall
  | convertToDefaultDataframe
  | metadataSave
  | metadataInsert (overwrite : Bool) (operation : String) (storage : Option String)
  | metadataUpdateDescription (description : String)
  | metadataUpdateStatisticsConfig
  | metadataAppendFeatures (newFeatures : List Feature)
  | computeRead
  | statisticsCompute
  deriving DecidableEq, Repr

instance instDecEqExcept {ε α : Type} [DecidableEq ε] [DecidableEq α] :
    DecidableEq (Except ε α) := fun x y =>
  match x, y with
  | .error e, .error f =>
    match decEq e f with
    | isTrue h => isTrue (h ▸ rfl)
    | isFalse h => isFalse (fun c => h (Except.error.inj c))
  | .error _, .ok _ => isFalse (fun c => Except.noConfusion c)
  | .ok _, .error _ => isFalse (fun c => Except.noConfusion c)
  | .ok a, .ok b =>
    match decEq a b with
    | isTrue h => isTrue (h ▸ rfl)
    | isFalse h => isFalse (fun c => h (Except.ok.inj c))

/-- The observable outcome of one method call: the Python return value (or
the exception raised), the warnings issued, the collaborator calls made in
order, and the state of the handle after the call. -/
structure Outcome (α : Type) where
  result : Except PyError α
  warnings : List Advisory
  calls : List EngineCall
  state : FeatureGroup
  deriving DecidableEq, Repr

/-- The statistics result produced by the statistics-engine collaborator;
modelled abstractly as a value tagged with the handle it was computed for. -/
structure Stats where
  fgName : String
  fgVersion : Option Nat
  deriving DecidableEq, Repr

/-- Embeds `FeatureGroup.compute_statistics` (`feature_group.py` lines 400-422): if
`self.statistics_config.enabled`, reads the feature group (compute engine)
and invokes the statistics engine, returning its result; otherwise issues a
`StorageWarning` naming the group and version, invokes no engine, and
returns `None`. -/
def FeatureGroup.compute_statistics (fg : FeatureGroup) : Outcome (Option Stats) :=
  if fg.statisticsConfig.enabled then
    { result := .ok (some ⟨fg.name, fg.version⟩)
      warnings := []
      calls := [.computeRead, .statisticsCompute]
      state := fg }
  else
    { result := .ok Option.none
      warnings := [.storageWarning fg.name fg.version]
      calls := []
      state := fg }

/-- Modelled from the spec: the storage targets `feature_group_engine.insert`
accepts.  The engine code is not in the provided sources; the spec states
that it fails if `storage` is neither None, online, nor offline. -/
def storageAllowed : Option String → Bool
  | Option.none => true
  | some s => s == "online" || s == "offline"

/-- Embeds `FeatureGroup.insert` (`feature_group.py` lines 274-339): converts the
dataframe (compute engine), calls `feature_group_engine.insert` with
`storage.lower() if storage is not None else None`, then calls
`self.compute_statistics()`; there is no `return` statement, so a successful
call returns `None`.  The storage validation inside the metadata engine is
modelled from the spec (see `storageAllowed`); when it rejects the storage
string the engine raises after having been called, `compute_statistics` is
not reached, and the local state of the handle is unchanged. -/
def FeatureGroup.insert (fg : FeatureGroup) (overwrite : Bool) (operation : String)
    (storage : Option String) : Outcome (Option FeatureGroup) :=
  let lowered := storage.map pyLower
  if storageAllowed lowered then
    let cs := fg.compute_statistics
    { result := .ok Option.none
      warnings := cs.warnings
      calls := [.convertToDefaultDataframe, .metadataInsert overwrite operation lowered]
        ++ cs.calls
      state := cs.state }
  else
    { result := .error (.valueError "storage overwrite supports only online and offline")
      warnings := []
      calls := [.convertToDefaultDataframe, .metadataInsert overwrite operation lowered]
      state := fg }

/-- Embeds `FeatureGroup.save` (`feature_group.py` lines 225-272): converts the
dataframe (compute engine) and calls `feature_group_engine.save`.  The
engine code is not in the provided sources; modelled from the spec, it
assigns `id` and, when the caller supplied no version, the backend-assigned
version (`assignedId`, `assignedVersion`).  If statistics are enabled the
statistics engine runs; if the version from the caller was `None` a
`VersionWarning` naming the group and the now-assigned version is issued;
`save` returns `self`. -/
def FeatureGroup.save (fg : FeatureGroup) (assignedId assignedVersion : Nat) :
    Outcome FeatureGroup :=
  let userVersion := fg.version
  let newVersion := match fg.version with
    | some v => some v
    | Option.none => some assignedVersion
  let fg1 := { fg with id := some assignedId, version := newVersion }
  let statCalls := if fg1.statisticsConfig.enabled then [EngineCall.statisticsCompute] else []
  let warns := match userVersion with
    | Option.none => [Advisory.versionWarning fg1.name fg1.version]
    | some _ => []
  { result := .ok fg1
    warnings := warns
    calls := [.convertToDefaultDataframe, .metadataSave] ++ statCalls
    state := fg1 }

/-- Embeds `FeatureGroup.update_description` (`feature_group.py` lines 388-398):
forwards to `feature_group_engine.update_description` and returns `self`.
The effect of the engine on the handle is modelled from the spec
("metadata-only updates forwarded to MetadataEngine; return the updated
handle"). -/
def FeatureGroup.update_description (fg : FeatureGroup) (d : String) : Outcome FeatureGroup :=
  let fg1 := { fg with description := d }
  { result := .ok fg1
    warnings := []
    calls := [.metadataUpdateDescription d]
    state := fg1 }

/-- Embeds `FeatureGroup.update_statistics_config` (`feature_group.py` lines
373-386): forwards to `feature_group_engine.update_statistics_config` and
returns `self`. -/
def FeatureGroup.update_statistics_config (fg : FeatureGroup) : Outcome FeatureGroup :=
  { result := .ok fg
    warnings := []
    calls := [.metadataUpdateStatisticsConfig]
    state := fg }

/-- A Python object appearing as an element of the list passed to
`append_features`: a `Feature`, or a value of any other type. -/
inductive PyObj
  | feat (f : Feature)
  | other (typeName : String)
  deriving DecidableEq, Repr

/-- The argument of `append_features`: a single `Feature`, a list (whose
elements may or may not be `Feature`s), or a value of any other type. -/
inductive AppendArg
  | single (f : Feature)
  | list (xs : List PyObj)
  | other (typeName : String)
  deriving DecidableEq, Repr

/-- The element loop of `append_features` (`feature_group.py` lines
440-450): collects `Feature` elements into `new_features` and raises
`TypeError` at the first element of any other type. -/
def collectFeatures : List PyObj → Except PyError (List Feature)
  | [] => .ok []
  | .feat f :: rest => (collectFeatures rest).map (fun fs => f :: fs)
  | .other _ :: _ =>
    .error (.typeError "The argument features has to be of type Feature or a list thereof, but an element is of a different type")

/-- The type dispatch of `append_features` (`feature_group.py` lines
437-455): a single `Feature` gives a one-element list, a list is validated
element-wise, any other type raises `TypeError`. -/
def appendArgFeatures : AppendArg → Except PyError (List Feature)
  | .single f => .ok [f]
  | .list xs => collectFeatures xs
  | .other _ =>
    .error (.typeError "The argument features has to be of type Feature or a list thereof, but is of a different type")

/-- Embeds `isinstance(feat, feature.Feature)` for a list element. -/
def pyObjIsFeat : PyObj → Bool
  | .feat _ => true
  | .other _ => false

/-- Decides whether the `append_features` argument is a `Feature` or a list
all of whose elements are `Feature`s. -/
def AppendArg.wellFormed : AppendArg → Bool
  | .single _ => true
  | .list xs => xs.all pyObjIsFeat
  | .other _ => false

/-- Embeds `FeatureGroup.append_features` (`feature_group.py` lines 424-457): the
argument is validated before `feature_group_engine.append_features` is
invoked; a `TypeError` leaves the handle untouched with no engine call.  On
success the engine performs the schema evolution (modelled from the spec:
the new features are appended) and `self` is returned. -/
def FeatureGroup.append_features (fg : FeatureGroup) (arg : AppendArg) : Outcome FeatureGroup :=
  match appendArgFeatures arg with
  | .error e =>
    { result := .error e
      warnings := []
      calls := []
      state := fg }
  | .ok nf =>
    let fg1 := { fg with features := fg.features ++ nf }
    { result := .ok fg1
      warnings := []
      calls := [.metadataAppendFeatures nf]
      state := fg1 }

/-- The dict produced by `FeatureGroup.to_dict` (`feature_group.py` lines
474-489); field names are the camel-cased wire keys, with the `type`
discriminator as `typeTag`. -/
structure WireDict where
  id : Option Nat
  name : String
  version : Option Nat
  description : String
  onlineEnabled : Bool
  timeTravelFormat : Option String
  features : List Feature
  featurestoreId : Nat
  typeTag : String
  descStatsEnabled : Bool
  featHistEnabled : Bool
  featCorrEnabled : Bool
  statisticColumns : List String
  deriving DecidableEq, Repr

/-- Embeds `FeatureGroup.to_dict` (`feature_group.py` lines 474-489). -/
def FeatureGroup.to_dict (fg : FeatureGroup) : WireDict :=
  { id := fg.id
    name := fg.name
    version := fg.version
    description := fg.description
    onlineEnabled := fg.onlineEnabled
    timeTravelFormat := fg.timeTravelFormat
    features := fg.features
    featurestoreId := fg.featureStoreId
    typeTag := "cachedFeaturegroupDTO"
    descStatsEnabled := fg.statisticsConfig.enabled
    featHistEnabled := fg.statisticsConfig.histograms
    featCorrEnabled := fg.statisticsConfig.correlations
    statisticColumns := fg.statisticsConfig.columns }

/-- Embeds `humps.decamelize` on a `to_dict` payload followed by popping the
`type` key (`from_response_json`, lines 459-463): each camel-cased wire key
becomes the snake-case constructor keyword; keys absent from the dict take
the constructor defaults. -/
def WireDict.decamelized (w : WireDict) : InitArgs :=
  { InitArgs.base w.name w.version w.featurestoreId with
    description := w.description
    id := w.id
    features := some (w.features.map FeatureArg.obj)
    desc_stats_enabled := some w.descStatsEnabled
    feat_corr_enabled := some w.featCorrEnabled
    feat_hist_enabled := some w.featHistEnabled
    statistic_columns := some w.statisticColumns
    online_enabled := w.onlineEnabled
    time_travel_format := w.timeTravelFormat }

/-- Embeds `FeatureGroup.from_response_json` (`feature_group.py` lines 459-463):
after decamelizing and popping `type`, the payload goes to `cls(**kwargs)`,
i.e. to `FeatureGroup.init`. -/
def FeatureGroup.from_response_json (payload : InitArgs) : Except PyError FeatureGroup :=
  FeatureGroup.init payload

/-- Embeds `FeatureGroup.update_from_response_json` (`feature_group.py` lines
465-469): same decoding, then `self.__init__(**kwargs)` — a full overwrite
of the handle state — and returns `self`. -/
def FeatureGroup.update_from_response_json (_fg : FeatureGroup) (payload : InitArgs) :
    Except PyError FeatureGroup :=
  FeatureGroup.init payload

/-- The round trip of claim C5: serialize with `to_dict`, convert the keys,
strip the discriminator, deserialize with `from_response_json`. -/
def roundTrip (fg : FeatureGroup) : Except PyError FeatureGroup :=
  FeatureGroup.from_response_json fg.to_dict.decamelized

/-- A small concrete schema used by the concrete evaluations below. -/
def egFeatures : List Feature :=
  [⟨"id", true, false⟩, ⟨"ts", false, true⟩, ⟨"val", false, false⟩]

/-- A backend-initialized handle whose statistics are disabled. -/
def egDisabledHandle : FeatureGroup :=
  { name := "fg"
    version := some 1
    featureStoreId := 67
    featureStoreName := some "fs"
    description := ""
    created := Option.none
    creator := Option.none
    id := some 13
    features := egFeatures
    location := Option.none
    jobs := Option.none
    onlineEnabled := false
    timeTravelFormat := some "HUDI"
    hudiEnabled := false
    statisticsConfig := ⟨false, false, false, []⟩
    primaryKey := some ["id"]
    partitionKey := some ["ts"]}

/-- The same handle with statistics enabled. -/
def egEnabledHandle : FeatureGroup :=
  { egDisabledHandle with statisticsConfig := ⟨true, true, false, ["id"]⟩ }

/-- A user-constructed handle (no identity) with a non-default statistics
configuration. -/
def egUserHandle : FeatureGroup :=
  { egDisabledHandle with
    id := Option.none
    statisticsConfig := ⟨true, false, false, ["a"]⟩ }

/-- A user-constructed handle that has not been given a version. -/
def egUnsavedHandle : FeatureGroup :=
  { egUserHandle with version := Option.none }

/-- A backend payload (already decamelized, `type` popped): identity present,
conflicting explicit key lists, lower-case time travel format. -/
def egBackendArgs : InitArgs :=
  { InitArgs.base "fg" (some 1) 67 with
    id := some 13
    features := some [FeatureArg.obj ⟨"id", true, false⟩, FeatureArg.dict "ts" false true,
      FeatureArg.obj ⟨"val", false, false⟩]
    primary_key := some ["bogus"]
    partition_key := some ["bogus2"]
    time_travel_format := some "hudi" }

/-- The handle `FeatureGroup.init egBackendArgs` constructs. -/
def egBackendHandle : FeatureGroup :=
  { name := "fg"
    version := some 1
    featureStoreId := 67
    featureStoreName := Option.none
    description := ""
    created := Option.none
    creator := Option.none
    id := some 13
    features := egFeatures
    location := Option.none
    jobs := Option.none
    onlineEnabled := false
    timeTravelFormat := some "HUDI"
    hudiEnabled := false
    statisticsConfig := ⟨false, false, false, []⟩
    primaryKey := some ["id"]
    partitionKey := some ["ts"]}

/-- Mapping a list of `Feature` objects into constructor arguments and back
through the element conversion of the constructor is the identity. -/
lemma map_featureOfArg_obj (fs : List Feature) :
    (fs.map FeatureArg.obj).map featureOfArg = fs := by
  induction fs with
  | nil => rfl
  | cons f rest ih => simp [featureOfArg, ih]

end Hsfs



namespace Hsfs

/-- When some list element is not a `Feature`, the element loop of
`append_features` raises a `TypeError`. -/
lemma collectFeatures_error_of_bad (xs : List PyObj)
    (h : xs.all pyObjIsFeat = false) :
    ∃ m, collectFeatures xs = Except.error (PyError.typeError m) := by
  induction xs with
  | nil => simp at h
  | cons x rest ih =>
    cases x with
    | feat f =>
      simp only [List.all_cons, pyObjIsFeat, Bool.true_and] at h
      obtain ⟨m, hm⟩ := ih h
      exact ⟨m, by simp [collectFeatures, hm, Except.map]⟩
    | other t => exact ⟨_, rfl⟩

/-- When every list element is a `Feature`, the element loop of
`append_features` succeeds. -/
lemma collectFeatures_ok_of_good (xs : List PyObj)
    (h : xs.all pyObjIsFeat = true) :
    ∃ fs, collectFeatures xs = Except.ok fs := by
  induction xs with
  | nil => exact ⟨[], rfl⟩
  | cons x rest ih =>
    cases x with
    | feat f =>
      simp only [List.all_cons, pyObjIsFeat, Bool.true_and] at h
      obtain ⟨fs, hfs⟩ := ih h
      exact ⟨f :: fs, by simp [collectFeatures, hfs, Except.map]⟩
    | other t => simp [List.all_cons, pyObjIsFeat] at h

/-- C2 (amended): `time_travel_format` is upper-cased when assigned at
construction (and `None` stays `None`), but the `time_travel_format`
property setter stores the assigned value verbatim, without upper-casing. -/
theorem time_travel_format_upper_at_init_verbatim_at_setter :
    (∀ (a : InitArgs) (fg : FeatureGroup), FeatureGroup.init a = Except.ok fg →
      fg.timeTravelFormat = a.time_travel_format.map pyUpper) ∧
    (∀ (fg : FeatureGroup) (v : Option String),
      (fg.set_time_travel_format v).timeTravelFormat = v) := by
  constructor
  · intro a fg h
    obtain ⟨n, v, fsid, desc, pk, prk, fsn, cr, crt, idv, feats, loc, jb, dse, fce, fhe,
      sc, oe, ttfv, hud, scfg⟩ := a
    cases feats with
    | none => exact Except.noConfusion h
    | some fs =>
      cases idv with
      | some i =>
        injection h with h
        subst h
        rfl
      | none =>
        cases hsc : normalizeStatisticsConfig scfg with
        | error e =>
          rw [FeatureGroup.init] at h
          rw [hsc] at h
          exact Except.noConfusion h
        | ok s =>
          rw [FeatureGroup.init] at h
          rw [hsc] at h
          injection h with h
          subst h
          rfl
  · intro fg v
    rfl

/-- C2 counterexample: assigning `"hudi"` through the `time_travel_format`
property setter stores `"hudi"` itself, not the upper-cased `"HUDI"` the
claim requires. -/
theorem time_travel_format_setter_cex :
    (egUserHandle.set_time_travel_format (some "hudi")).timeTravelFormat = some "hudi" ∧
    some "hudi" ≠ some "HUDI" := by decide

/-- Witness for the C2 theorem at concrete inputs. -/
theorem time_travel_format_upper_at_init_verbatim_at_setter_witness :
    egBackendHandle.timeTravelFormat = egBackendArgs.time_travel_format.map pyUpper ∧
    (egUserHandle.set_time_travel_format (some "hudi")).timeTravelFormat = some "hudi" :=
  ⟨time_travel_format_upper_at_init_verbatim_at_setter.1 egBackendArgs egBackendHandle
      (by decide),
    time_travel_format_upper_at_init_verbatim_at_setter.2 egUserHandle (some "hudi")⟩

/-- C4: when the handle is constructed with an `id` (backend data, including
every `from_response_json` payload carrying an id), `primary_key` and
`partition_key` are exactly the names of the features flagged
`primary`/`partition`, overriding any constructor arguments; when `id` is
absent (user construction), they are the constructor arguments verbatim. -/
theorem key_derivation_by_construction_path :
    ∀ (a : InitArgs) (fg : FeatureGroup), FeatureGroup.from_response_json a = Except.ok fg →
      (a.id ≠ Option.none →
        fg.primaryKey = some ((fg.features.filter (fun f => f.primary)).map Feature.name) ∧
        fg.partitionKey = some ((fg.features.filter (fun f => f.part)).map Feature.name)) ∧
      (a.id = Option.none →
        fg.primaryKey = a.primary_key ∧ fg.partitionKey = a.partition_key) := by
  intro a fg h
  obtain ⟨n, v, fsid, desc, pk, prk, fsn, cr, crt, idv, feats, loc, jb, dse, fce, fhe,
    sc, oe, ttfv, hud, scfg⟩ := a
  cases feats with
  | none => exact Except.noConfusion h
  | some fs =>
    cases idv with
    | some i =>
      injection h with h
      subst h
      exact ⟨fun _ => ⟨rfl, rfl⟩, fun hc => Option.noConfusion hc⟩
    | none =>
      cases hsc : normalizeStatisticsConfig scfg with
      | error e =>
        rw [FeatureGroup.from_response_json, FeatureGroup.init] at h
        rw [hsc] at h
        exact Except.noConfusion h
      | ok s =>
        rw [FeatureGroup.from_response_json, FeatureGroup.init] at h
        rw [hsc] at h
        injection h with h
        subst h
        exact ⟨fun hc => absurd rfl hc, fun _ => ⟨rfl, rfl⟩⟩

/-- Witness for the C4 theorem: a backend payload with conflicting explicit
key lists still yields the flag-derived keys. -/
theorem key_derivation_by_construction_path_witness :
    (egBackendArgs.id ≠ Option.none →
      egBackendHandle.primaryKey
          = some ((egBackendHandle.features.filter (fun f => f.primary)).map Feature.name) ∧
      egBackendHandle.partitionKey
          = some ((egBackendHandle.features.filter (fun f => f.part)).map Feature.name)) ∧
    (egBackendArgs.id = Option.none →
      egBackendHandle.primaryKey = egBackendArgs.primary_key ∧
      egBackendHandle.partitionKey = egBackendArgs.partition_key) :=
  key_derivation_by_construction_path egBackendArgs egBackendHandle (by decide)

/-- C10: constructing a handle without a `features` argument (the default
`None`) always raises a `TypeError`, on every construction path:
`__init__`, `from_response_json`, `update_from_response_json`. -/
theorem features_argument_required :
    ∀ a : InitArgs, a.features = Option.none →
      FeatureGroup.init a
          = Except.error (PyError.typeError "argument of type NoneType is not iterable") ∧
      FeatureGroup.from_response_json a
          = Except.error (PyError.typeError "argument of type NoneType is not iterable") ∧
      ∀ fg : FeatureGroup, fg.update_from_response_json a
          = Except.error (PyError.typeError "argument of type NoneType is not iterable") := by
  intro a h
  have h1 : FeatureGroup.init a
      = Except.error (PyError.typeError "argument of type NoneType is not iterable") := by
    rw [FeatureGroup.init, h]
  exact ⟨h1, h1, fun fg => h1⟩

/-- Witness for the C10 theorem: the all-defaults constructor call fails on
each construction path. -/
theorem features_argument_required_witness :
    FeatureGroup.init (InitArgs.base "fg" (some 1) 67)
        = Except.error (PyError.typeError "argument of type NoneType is not iterable") ∧
    FeatureGroup.from_response_json (InitArgs.base "fg" (some 1) 67)
        = Except.error (PyError.typeError "argument of type NoneType is not iterable") ∧
    egUserHandle.update_from_response_json (InitArgs.base "fg" (some 1) 67)
        = Except.error (PyError.typeError "argument of type NoneType is not iterable") :=
  ⟨(features_argument_required (InitArgs.base "fg" (some 1) 67) (by decide)).1,
    (features_argument_required (InitArgs.base "fg" (some 1) 67) (by decide)).2.1,
    (features_argument_required (InitArgs.base "fg" (some 1) 67) (by decide)).2.2 egUserHandle⟩

/-- C6: `compute_statistics` on a handle whose statistics are disabled
invokes no engine, returns `None`, raises no error, and issues exactly one
advisory (storage) warning naming the group and version. -/
theorem compute_statistics_disabled_noop :
    ∀ fg : FeatureGroup, fg.statisticsConfig.enabled = false →
      fg.compute_statistics =
        ⟨Except.ok Option.none, [Advisory.storageWarning fg.name fg.version], [], fg⟩ := by
  intro fg h
  rw [FeatureGroup.compute_statistics, h]
  rfl

/-- Witness for the C6 theorem at a concrete disabled handle. -/
theorem compute_statistics_disabled_noop_witness :
    egDisabledHandle.compute_statistics =
      ⟨Except.ok Option.none,
        [Advisory.storageWarning egDisabledHandle.name egDisabledHandle.version], [],
        egDisabledHandle⟩ :=
  compute_statistics_disabled_noop egDisabledHandle (by decide)

/-- C7: a `save` on a handle whose version was `None` issues a version
warning carrying the backend-assigned version (which is also the stored
version afterwards); a `save` with a caller-supplied version issues no
warning. -/
theorem save_version_warning_contract :
    ∀ (fg : FeatureGroup) (i v : Nat),
      (fg.version = Option.none →
        (fg.save i v).warnings = [Advisory.versionWarning fg.name (some v)] ∧
        (fg.save i v).state.version = some v) ∧
      (∀ u, fg.version = some u → (fg.save i v).warnings = []) := by
  intro fg i v
  constructor
  · intro h
    rw [FeatureGroup.save, h]
    exact ⟨rfl, rfl⟩
  · intro u h
    rw [FeatureGroup.save, h]

/-- Witness for the C7 theorem: an unversioned save warns with the assigned
version `1`; a versioned save does not warn. -/
theorem save_version_warning_contract_witness :
    ((egUnsavedHandle.save 7 1).warnings
        = [Advisory.versionWarning egUnsavedHandle.name (some 1)] ∧
      (egUnsavedHandle.save 7 1).state.version = some 1) ∧
    (egUserHandle.save 7 5).warnings = [] :=
  ⟨(save_version_warning_contract egUnsavedHandle 7 1).1 (by decide),
    (save_version_warning_contract egUserHandle 7 5).2 1 (by decide)⟩

/-- C8: `append_features` with an argument that is neither a `Feature` nor a
list of `Feature`s raises a `TypeError` before the metadata engine is
invoked, leaving the features of the handle unchanged. -/
theorem append_features_type_error_no_effect :
    ∀ (fg : FeatureGroup) (arg : AppendArg), arg.wellFormed = false →
      (∃ m, (fg.append_features arg).result = Except.error (PyError.typeError m)) ∧
      (fg.append_features arg).calls = [] ∧
      (fg.append_features arg).state = fg := by
  intro fg arg h
  cases arg with
  | single f => simp [AppendArg.wellFormed] at h
  | list xs =>
    obtain ⟨m, hm⟩ := collectFeatures_error_of_bad xs (by simpa [AppendArg.wellFormed] using h)
    refine ⟨⟨m, ?_⟩, ?_, ?_⟩ <;>
      simp [FeatureGroup.append_features, appendArgFeatures, hm]
  | other t => exact ⟨⟨_, rfl⟩, rfl, rfl⟩

/-- Witness for the C8 theorem: a list containing a non-feature element. -/
theorem append_features_type_error_no_effect_witness :
    (∃ m, (egUserHandle.append_features
        (.list [.feat ⟨"x", false, false⟩, .other "str"])).result
        = Except.error (PyError.typeError m)) ∧
    (egUserHandle.append_features
        (.list [.feat ⟨"x", false, false⟩, .other "str"])).calls = [] ∧
    (egUserHandle.append_features
        (.list [.feat ⟨"x", false, false⟩, .other "str"])).state = egUserHandle :=
  append_features_type_error_no_effect egUserHandle
    (.list [.feat ⟨"x", false, false⟩, .other "str"]) (by decide)

/-- C9: a successful `insert` returns `None`, while `save`,
`update_description`, `update_statistics_config` and `append_features`
each return the handle they were called on (its state after the call). -/
theorem method_return_value_contract :
    (∀ (fg : FeatureGroup) (ow : Bool) (op : String) (st : Option String),
      storageAllowed (st.map pyLower) = true →
      (fg.insert ow op st).result = Except.ok Option.none) ∧
    (∀ (fg : FeatureGroup) (i v : Nat),
      (fg.save i v).result = Except.ok (fg.save i v).state) ∧
    (∀ (fg : FeatureGroup) (d : String),
      (fg.update_description d).result = Except.ok (fg.update_description d).state) ∧
    (∀ fg : FeatureGroup,
      fg.update_statistics_config.result = Except.ok fg.update_statistics_config.state) ∧
    (∀ (fg : FeatureGroup) (arg : AppendArg), arg.wellFormed = true →
      (fg.append_features arg).result = Except.ok (fg.append_features arg).state) := by
  refine ⟨?_, ?_, ?_, ?_, ?_⟩
  · intro fg ow op st h
    simp [FeatureGroup.insert, h]
  · intro fg i v
    rfl
  · intro fg d
    rfl
  · intro fg
    rfl
  · intro fg arg h
    cases arg with
    | single f => rfl
    | list xs =>
      obtain ⟨fs, hfs⟩ := collectFeatures_ok_of_good xs (by simpa [AppendArg.wellFormed] using h)
      simp [FeatureGroup.append_features, appendArgFeatures, hfs]
    | other t => simp [AppendArg.wellFormed] at h

/-- Witness for the C9 theorem at concrete inputs. -/
theorem method_return_value_contract_witness :
    (egEnabledHandle.insert false "upsert" (some "Online")).result = Except.ok Option.none ∧
    (egUnsavedHandle.save 7 1).result = Except.ok (egUnsavedHandle.save 7 1).state ∧
    (egUserHandle.update_description "d").result
        = Except.ok (egUserHandle.update_description "d").state ∧
    egUserHandle.update_statistics_config.result
        = Except.ok egUserHandle.update_statistics_config.state ∧
    (egUserHandle.append_features (.single ⟨"x", false, false⟩)).result
        = Except.ok (egUserHandle.append_features (.single ⟨"x", false, false⟩)).state :=
  ⟨method_return_value_contract.1 egEnabledHandle false "upsert" (some "Online") (by decide),
    method_return_value_contract.2.1 egUnsavedHandle 7 1,
    method_return_value_contract.2.2.1 egUserHandle "d",
    method_return_value_contract.2.2.2.1 egUserHandle,
    method_return_value_contract.2.2.2.2 egUserHandle (.single ⟨"x", false, false⟩) rfl⟩

/-- C1 (amended): after a successful `insert`, `compute_statistics` is
invoked unconditionally, but that call itself respects
`statistics_config.enabled`: the statistics engine runs after `insert` iff
the flag is enabled (only the advisory warning differs when disabled),
exactly the same condition under which `save` runs the statistics engine. -/
theorem insert_statistics_respects_flag :
    ∀ (fg : FeatureGroup) (ow : Bool) (op : String) (st : Option String),
      storageAllowed (st.map pyLower) = true →
      ((EngineCall.statisticsCompute ∈ (fg.insert ow op st).calls) ↔
        fg.statisticsConfig.enabled = true) ∧
      ((fg.insert ow op st).warnings =
        if fg.statisticsConfig.enabled then []
        else [Advisory.storageWarning fg.name fg.version]) ∧
      (∀ i v : Nat, (EngineCall.statisticsCompute ∈ (fg.save i v).calls) ↔
        fg.statisticsConfig.enabled = true) := by
  intro fg ow op st h
  refine ⟨?_, ?_, fun i v => ?_⟩ <;> cases he : fg.statisticsConfig.enabled <;>
    simp [FeatureGroup.insert, FeatureGroup.compute_statistics, FeatureGroup.save, h, he]

/-- C1 counterexample: on a handle with statistics disabled, a successful
`insert` does not invoke the statistics engine, so statistics are not
recomputed "independent of `statistics_config.enabled`". -/
theorem insert_statistics_not_unconditional_cex :
    (egDisabledHandle.insert false "upsert" Option.none).result = Except.ok Option.none ∧
    EngineCall.statisticsCompute ∉
      (egDisabledHandle.insert false "upsert" Option.none).calls := by decide

/-- Witness for the C1 theorem at a concrete enabled handle. -/
theorem insert_statistics_respects_flag_witness :
    ((EngineCall.statisticsCompute ∈
        (egEnabledHandle.insert false "upsert" Option.none).calls) ↔
      egEnabledHandle.statisticsConfig.enabled = true) ∧
    ((egEnabledHandle.insert false "upsert" Option.none).warnings =
      if egEnabledHandle.statisticsConfig.enabled then []
      else [Advisory.storageWarning egEnabledHandle.name egEnabledHandle.version]) ∧
    (∀ i v : Nat, (EngineCall.statisticsCompute ∈ (egEnabledHandle.save i v).calls) ↔
      egEnabledHandle.statisticsConfig.enabled = true) :=
  insert_statistics_respects_flag egEnabledHandle false "upsert" Option.none (by decide)

/-- C3 (amended): `insert` performs no local storage validation; with a
storage string that is neither `None`, `"online"` nor `"offline"` an error
is raised inside the metadata engine (modelled from the spec), but only
after the compute engine (dataframe conversion) and the metadata engine
itself have been contacted; the local state of the handle is unchanged and the
statistics step is never reached. -/
theorem insert_invalid_storage_after_contact :
    ∀ (fg : FeatureGroup) (ow : Bool) (op : String) (st : Option String),
      storageAllowed (st.map pyLower) = false →
      (∃ m, (fg.insert ow op st).result = Except.error (PyError.valueError m)) ∧
      (fg.insert ow op st).calls =
        [EngineCall.convertToDefaultDataframe,
          EngineCall.metadataInsert ow op (st.map pyLower)] ∧
      (fg.insert ow op st).state = fg := by
  intro fg ow op st h
  refine ⟨⟨"storage overwrite supports only online and offline", ?_⟩, ?_, ?_⟩ <;>
    simp [FeatureGroup.insert, h]

/-- C3 counterexample: `insert(storage="invalid")` contacts the compute
engine (dataframe conversion) before any error is raised, contradicting the
claim that it raises before contacting any collaborator. -/
theorem insert_invalid_storage_cex :
    (egUserHandle.insert false "upsert" (some "invalid")).result
        = Except.error (PyError.valueError "storage overwrite supports only online and offline") ∧
    EngineCall.convertToDefaultDataframe ∈
      (egUserHandle.insert false "upsert" (some "invalid")).calls := by decide

/-- Witness for the C3 theorem at a concrete invalid storage string. -/
theorem insert_invalid_storage_after_contact_witness :
    (∃ m, (egUserHandle.insert false "upsert" (some "invalid")).result
        = Except.error (PyError.valueError m)) ∧
    (egUserHandle.insert false "upsert" (some "invalid")).calls =
      [EngineCall.convertToDefaultDataframe,
        EngineCall.metadataInsert false "upsert" ((some "invalid").map pyLower)] ∧
    (egUserHandle.insert false "upsert" (some "invalid")).state = egUserHandle :=
  insert_invalid_storage_after_contact egUserHandle false "upsert" (some "invalid") (by decide)

/-- C5 (amended): for a handle carrying a backend identity (`id` set), the
`to_dict` wire representation deserializes (after decamelizing and popping
`type`) to a handle with the same `name`, `version`, `features` and
`statistics_config`; for a user handle (`id` absent) the claim fails, since
the flat statistics flags in the payload are ignored and `statistics_config`
resets to the default. -/
theorem round_trip_preserves_backend_handles :
    ∀ (fg : FeatureGroup) (i : Nat), fg.id = some i →
      ∃ g, roundTrip fg = Except.ok g ∧ g.name = fg.name ∧ g.version = fg.version ∧
        g.features = fg.features ∧ g.statisticsConfig = fg.statisticsConfig := by
  intro fg i h
  rw [roundTrip, FeatureGroup.from_response_json, FeatureGroup.init]
  simp only [FeatureGroup.to_dict, WireDict.decamelized, InitArgs.base]
  rw [h]
  exact ⟨_, rfl, rfl, rfl, map_featureOfArg_obj _, rfl⟩

/-- C5 counterexample: a user handle (no identity) with a non-default
statistics configuration round-trips to a handle whose statistics
configuration is the default, not the original. -/
theorem round_trip_user_statistics_cex :
    egUserHandle.id = Option.none ∧
    (roundTrip egUserHandle).map (fun g => g.statisticsConfig)
        = Except.ok ⟨false, false, false, []⟩ ∧
    egUserHandle.statisticsConfig ≠ ⟨false, false, false, []⟩ := by decide

/-- Witness for the C5 theorem at a concrete backend handle. -/
theorem round_trip_preserves_backend_handles_witness :
    ∃ g, roundTrip egDisabledHandle = Except.ok g ∧ g.name = egDisabledHandle.name ∧
      g.version = egDisabledHandle.version ∧ g.features = egDisabledHandle.features ∧
      g.statisticsConfig = egDisabledHandle.statisticsConfig :=
  round_trip_preserves_backend_handles egDisabledHandle 13 (by decide)

end Hsfs
